import Mathlib

/-
Verification of the transaction helper, JSONB accessors and GormConfig
defaulting of the go-pkg-database repository, as a shallow embedding in Lean.

The transaction executor (src/sql/transaction.go) is modelled as a pure
function from a connection model and a unit-of-work description to a result
together with the list of store calls it issues, mirroring the control flow
of WithTransactionContext / WithNestedTransactionContext line by line.
-/

namespace GoPkgDatabase

/-- A driver- or caller-level error value (Go `error`), identified by its
message. -/
abbrev Err := String

/-- A value carried by an abnormal runtime fault (Go panic value). -/
abbrev PanicVal := String

/-- One call issued against the backing store by the transaction helpers. -/
inductive Call where
  | beginTx : Call
  | commit : Call
  | rollback : Call
  | savePoint (name : String) : Call
  | rollbackTo (name : String) : Call
  deriving DecidableEq, Repr

/-- Which handle the unit of work is invoked with: the fresh transaction
handle produced by Begin, or the original connection handle (used by the
savepoint branch, which runs the unit of work against the same open
transaction). -/
inductive HandleId where
  | txHandle
  | dbHandle
  deriving DecidableEq, Repr

/-- Outcome of the unit of work: normal success, an ordinary error return,
or an abnormal fault (panic). -/
inductive FnOutcome where
  | ok : FnOutcome
  | fails (e : Err) : FnOutcome
  | panics (v : PanicVal) : FnOutcome
  deriving DecidableEq, Repr

/-- A unit of work: given the handle it receives, the store calls it issues
itself and its outcome. -/
abbrev TxFn := HandleId → List Call × FnOutcome

/-- The errors the transaction helpers construct with `fmt.Errorf`, each
constructor carrying the wrapped cause(s):
`configurationError` = "database connection is nil";
`beginFailed` = "failed to begin transaction: %w";
`txFailed` = "transaction failed: %w";
`txFailedRollbackFailed` = "transaction failed: %w, rollback failed: %v";
`commitFailed` = "failed to commit transaction: %w";
`savepointCreateFailed` = "failed to create savepoint: %w";
`nestedFailed` = "nested transaction failed: %w";
`nestedFailedRollbackFailed` =
  "nested transaction failed: %w, savepoint rollback failed: %v". -/
inductive GoError where
  | configurationError : GoError
  | beginFailed (cause : Err) : GoError
  | txFailed (cause : Err) : GoError
  | txFailedRollbackFailed (cause rollbackCause : Err) : GoError
  | commitFailed (cause : Err) : GoError
  | savepointCreateFailed (cause : Err) : GoError
  | nestedFailed (cause : Err) : GoError
  | nestedFailedRollbackFailed (cause rollbackCause : Err) : GoError
  deriving DecidableEq, Repr

/-- Whether an error of the helper wraps `e` as the original cause. -/
def GoError.wrapsOriginal : GoError → Err → Bool
  | .configurationError, _ => false
  | .beginFailed c, e => c == e
  | .txFailed c, e => c == e
  | .txFailedRollbackFailed c _, e => c == e
  | .commitFailed c, e => c == e
  | .savepointCreateFailed c, e => c == e
  | .nestedFailed c, e => c == e
  | .nestedFailedRollbackFailed c _, e => c == e

/-- Whether an error of the helper carries both an original cause `e` and a
rollback cause `re` (only the two composite constructors do). -/
def GoError.carriesBoth : GoError → Err → Err → Bool
  | .txFailedRollbackFailed c r, e, re => c == e && r == re
  | .nestedFailedRollbackFailed c r, e, re => c == e && r == re
  | _, _, _ => false

/-- The way a call to a transaction helper terminates: normal success, an
ordinary error return, or re-raising an abnormal fault. -/
inductive TxResult where
  | success : TxResult
  | failure (e : GoError) : TxResult
  | panicked (v : PanicVal) : TxResult
  deriving DecidableEq, Repr

/-- Whether the result is an ordinary error return wrapping `e` as the
original cause. -/
def TxResult.errWraps (r : TxResult) (e : Err) : Bool :=
  match r with
  | .failure ge => ge.wrapsOriginal e
  | _ => false

/-- The slice of `context.Context` the helpers read: the value stored under
the key "savepoint_id" (an integer when present, absent otherwise). -/
structure Ctx where
  savepointId : Option Int
  deriving DecidableEq, Repr

/-- `context.Background()`: carries no "savepoint_id" value. -/
def backgroundCtx : Ctx := ⟨none⟩

/-- Model of `gorm.Statement`: only the field the helper inspects, the
`DB` pointer (present or nil). -/
structure Statement where
  db : Option Unit
  deriving DecidableEq, Repr

/-- Model of a non-nil `*gorm.DB` connection handle: the `Statement`
pointer the nested helper inspects, plus the behaviour of the store on
each kind of call (whether it fails, and with what error). -/
structure DBConn where
  statement : Option Statement
  beginErr : Option Err
  commitErr : Option Err
  rollbackErr : Option Err
  savePointErr : String → Option Err
  rollbackToErr : String → Option Err

/-- A possibly-nil `*gorm.DB` handle. -/
abbrev DB := Option DBConn

/-- The in-transaction check of WithNestedTransactionContext:
`db.Statement != nil && db.Statement.DB != nil`. -/
def DBConn.inTransaction (c : DBConn) : Bool :=
  match c.statement with
  | some s => s.db.isSome
  | none => false

/-- The savepoint name `fmt.Sprintf("sp_%d", ctx.Value("savepoint_id"))`.
When the context carries no "savepoint_id" value, `ctx.Value` returns nil
and Go's fmt renders `%d` of nil as `%!d(<nil>)`. -/
def savepointName (ctx : Ctx) : String :=
  match ctx.savepointId with
  | some n => "sp_" ++ toString n
  | none => "sp_%!d(<nil>)"

/-- WithTransactionContext (src/sql/transaction.go:19-48): nil check,
begin, run the unit of work, commit on success, rollback on failure
(reporting a rollback failure together with the original one), and on a
panic rollback then re-raise the same value. Returns the result together
with the list of store calls issued. -/
def withTransactionContext (_ctx : Ctx) (db : DB) (fn : TxFn) :
    TxResult × List Call :=
  match db with
  | none => (.failure .configurationError, [])
  | some conn =>
    match conn.beginErr with
    | some e => (.failure (.beginFailed e), [Call.beginTx])
    | none =>
      let run := fn .txHandle
      match run.2 with
      | .panics v =>
        (.panicked v, Call.beginTx :: run.1 ++ [Call.rollback])
      | .fails e =>
        match conn.rollbackErr with
        | some re =>
          (.failure (.txFailedRollbackFailed e re),
            Call.beginTx :: run.1 ++ [Call.rollback])
        | none =>
          (.failure (.txFailed e), Call.beginTx :: run.1 ++ [Call.rollback])
      | .ok =>
        match conn.commitErr with
        | some ce =>
          (.failure (.commitFailed ce), Call.beginTx :: run.1 ++ [Call.commit])
        | none => (.success, Call.beginTx :: run.1 ++ [Call.commit])

/-- WithTransaction (src/sql/transaction.go:14-16): delegates to
WithTransactionContext with context.Background(). -/
def withTransaction (db : DB) (fn : TxFn) : TxResult × List Call :=
  withTransactionContext backgroundCtx db fn

/-- WithNestedTransactionContext (src/sql/transaction.go:56-88): nil check;
if a transaction is already open, create a savepoint named from the
context, run the unit of work against the same handle, roll back to the
savepoint on ordinary failure or panic; otherwise delegate to
WithTransactionContext. -/
def withNestedTransactionContext (ctx : Ctx) (db : DB) (fn : TxFn) :
    TxResult × List Call :=
  match db with
  | none => (.failure .configurationError, [])
  | some conn =>
    if conn.inTransaction then
      let name := savepointName ctx
      match conn.savePointErr name with
      | some e => (.failure (.savepointCreateFailed e), [Call.savePoint name])
      | none =>
        let run := fn .dbHandle
        match run.2 with
        | .panics v =>
          (.panicked v, Call.savePoint name :: run.1 ++ [Call.rollbackTo name])
        | .fails e =>
          match conn.rollbackToErr name with
          | some re =>
            (.failure (.nestedFailedRollbackFailed e re),
              Call.savePoint name :: run.1 ++ [Call.rollbackTo name])
          | none =>
            (.failure (.nestedFailed e),
              Call.savePoint name :: run.1 ++ [Call.rollbackTo name])
        | .ok => (.success, Call.savePoint name :: run.1)
    else
      withTransactionContext ctx (some conn) fn

/-- WithNestedTransaction (src/sql/transaction.go:51-53): delegates to
WithNestedTransactionContext with context.Background(). -/
def withNestedTransaction (db : DB) (fn : TxFn) : TxResult × List Call :=
  withNestedTransactionContext backgroundCtx db fn

/-- A connection with no open transaction on which every store call
succeeds. -/
def connPlain : DBConn :=
  { statement := none, beginErr := none, commitErr := none,
    rollbackErr := none, savePointErr := fun _ => none,
    rollbackToErr := fun _ => none }

/-- A connection with an open transaction (`Statement.DB` non-nil) on which
every store call succeeds. -/
def connOpen : DBConn :=
  { statement := some { db := some () }, beginErr := none, commitErr := none,
    rollbackErr := none, savePointErr := fun _ => none,
    rollbackToErr := fun _ => none }

/-- A connection with no open transaction whose rollback call fails. -/
def connRbFail : DBConn :=
  { statement := none, beginErr := none, commitErr := none,
    rollbackErr := some "rollback refused", savePointErr := fun _ => none,
    rollbackToErr := fun _ => none }

/-- A connection with an open transaction whose rollback-to-savepoint call
fails. -/
def connOpenRbFail : DBConn :=
  { statement := some { db := some () }, beginErr := none, commitErr := none,
    rollbackErr := none, savePointErr := fun _ => none,
    rollbackToErr := fun _ => some "rollback refused" }

/-- The unit of work that issues no store calls of its own and succeeds. -/
def fnOk : TxFn := fun _ => ([], .ok)

/-- The unit of work that issues no store calls of its own and fails with
error `e`. -/
def fnFails (e : Err) : TxFn := fun _ => ([], .fails e)

/-- The unit of work that issues no store calls of its own and panics with
value `v`. -/
def fnPanics (v : PanicVal) : TxFn := fun _ => ([], .panics v)

/-
JSONB (src/sql/jsonb.go). `map[string]any` is modelled as an association
list with at most one entry per key, and a nil map as `none`.
-/

/-- A JSON value stored in a JSONB map (the `any` values the accessors
type-switch over: strings, ints, float64s, json.Number, bools, null). -/
inductive JValue where
  | vnull : JValue
  | vbool (b : Bool) : JValue
  | vstring (s : String) : JValue
  | vint (n : Int) : JValue
  | vfloat (q : Rat) : JValue
  | vnumber (s : String) : JValue
  deriving DecidableEq, Repr

/-- The JSONB column type: `none` is Go's nil map. -/
abbrev JSONB := Option (List (String × JValue))

/-- Go map lookup `j[key]` on the entry list. -/
def lookupKey : List (String × JValue) → String → Option JValue
  | [], _ => none
  | (k, v) :: rest, key => if k == key then some v else lookupKey rest key

/-- Go map assignment `j[key] = value` on the entry list. -/
def setKey : List (String × JValue) → String → JValue →
    List (String × JValue)
  | [], k, v => [(k, v)]
  | (k0, v0) :: rest, k, v =>
    if k0 == k then (k, v) :: rest else (k0, v0) :: setKey rest k v

/-- Go `delete(j, key)` on the entry list. -/
def deleteKey : List (String × JValue) → String → List (String × JValue)
  | [], _ => []
  | (k0, v0) :: rest, k =>
    if k0 == k then deleteKey rest k else (k0, v0) :: deleteKey rest k

/-- JSONB.Get (src/sql/jsonb.go:76-82): nil receiver yields (nil, false);
otherwise the map lookup's value and presence flag. -/
def JSONB.get (j : JSONB) (key : String) : Option JValue × Bool :=
  match j with
  | none => (none, false)
  | some m =>
    match lookupKey m key with
    | some v => (some v, true)
    | none => (none, false)

/-- JSONB.GetString (src/sql/jsonb.go:85-92): Get, then a string type
assertion. -/
def JSONB.getString (j : JSONB) (key : String) : String × Bool :=
  match j.get key with
  | (value, true) =>
    match value with
    | some (.vstring s) => (s, true)
    | _ => ("", false)
  | (_, false) => ("", false)

/-- Truncating conversion `int(v)` of a Go float64, toward zero. -/
def goTruncate (q : Rat) : Int := Int.tdiv q.num (q.den : Int)

/-- Decimal digit accumulation for `strconv.ParseInt`. -/
def parseDigits : List Char → Nat → Option Nat
  | [], acc => some acc
  | c :: rest, acc =>
    if c.isDigit then parseDigits rest (acc * 10 + (c.toNat - 48)) else none

/-- `json.Number.Int64` via `strconv.ParseInt(s, 10, 64)`: optional sign,
at least one digit, and a 64-bit range check. -/
def parseInt64 (s : String) : Option Int :=
  let cs := s.toList
  let signed : Int × List Char :=
    match cs with
    | '-' :: rest => (-1, rest)
    | '+' :: rest => (1, rest)
    | _ => (1, cs)
  match signed.2 with
  | [] => none
  | _ =>
    match parseDigits signed.2 0 with
    | none => none
    | some n =>
      let v : Int := signed.1 * (n : Int)
      if -(2 ^ 63) ≤ v ∧ v < 2 ^ 63 then some v else none

/-- JSONB.GetInt (src/sql/jsonb.go:95-112): Get, then a type switch over
int, float64 (truncated) and json.Number (parsed as int64). -/
def JSONB.getInt (j : JSONB) (key : String) : Int × Bool :=
  match j.get key with
  | (value, true) =>
    match value with
    | some (.vint n) => (n, true)
    | some (.vfloat q) => (goTruncate q, true)
    | some (.vnumber s) =>
      match parseInt64 s with
      | some i => (i, true)
      | none => (0, false)
    | _ => (0, false)
  | (_, false) => (0, false)

/-- JSONB.GetBool (src/sql/jsonb.go:115-122): Get, then a bool type
assertion. -/
def JSONB.getBool (j : JSONB) (key : String) : Bool × Bool :=
  match j.get key with
  | (value, true) =>
    match value with
    | some (.vbool b) => (b, true)
    | _ => (false, false)
  | (_, false) => (false, false)

/-- JSONB.Set (src/sql/jsonb.go:68-73): no-op on a nil receiver, otherwise
map assignment. -/
def JSONB.set (j : JSONB) (key : String) (value : JValue) : JSONB :=
  match j with
  | none => none
  | some m => some (setKey m key value)

/-- JSONB.Delete (src/sql/jsonb.go:125-130): no-op on a nil receiver,
otherwise map deletion. -/
def JSONB.delete (j : JSONB) (key : String) : JSONB :=
  match j with
  | none => none
  | some m => some (deleteKey m key)

/-- JSONB.Has (src/sql/jsonb.go:133-139): false on a nil receiver,
otherwise the lookup's presence flag. -/
def JSONB.hasKey (j : JSONB) (key : String) : Bool :=
  match j with
  | none => false
  | some m => (lookupKey m key).isSome

/-- JSONB.Keys (src/sql/jsonb.go:142-151): a nil slice on a nil receiver
(modelled as `none`), otherwise the list of keys. -/
def JSONB.keys (j : JSONB) : Option (List String) :=
  match j with
  | none => none
  | some m => some (m.map Prod.fst)

/-- `len(j)` of the map. -/
def JSONB.len (j : JSONB) : Nat :=
  match j with
  | none => 0
  | some m => m.length

/-- JSONB.IsEmpty (src/sql/jsonb.go:154-156): `len(j) == 0`. -/
def JSONB.isEmpty (j : JSONB) : Bool := j.len == 0

/-- JSONB.Clone (src/sql/jsonb.go:159-169): nil on a nil receiver,
otherwise an entrywise copy. -/
def cloneEntries : List (String × JValue) → List (String × JValue)
  | [] => []
  | (k, v) :: rest => (k, v) :: cloneEntries rest

/-- See `cloneEntries`. -/
def JSONB.clone (j : JSONB) : JSONB :=
  match j with
  | none => none
  | some m => some (cloneEntries m)

/-- JSON string escaping of the characters `json.Marshal` always escapes
in our value domain: quote and backslash. -/
def escapeJSONChar (c : Char) : String :=
  if c == '"' then "\\\""
  else if c == '\\' then "\\\\"
  else String.singleton c

/-- See `escapeJSONChar`. -/
def escapeJSON (s : String) : String :=
  String.join (s.toList.map escapeJSONChar)

/-- Serialization of one value, as `json.Marshal` renders it. -/
def marshalJValue : JValue → String
  | .vnull => "null"
  | .vbool true => "true"
  | .vbool false => "false"
  | .vstring s => "\"" ++ escapeJSON s ++ "\""
  | .vint n => toString n
  | .vfloat q => toString q
  | .vnumber s => s

/-- Insertion into a key-sorted entry list (`json.Marshal` emits map keys
in sorted order). -/
def insertSorted (e : String × JValue) :
    List (String × JValue) → List (String × JValue)
  | [] => [e]
  | x :: xs => if e.1 ≤ x.1 then e :: x :: xs else x :: insertSorted e xs

/-- See `insertSorted`. -/
def sortEntries : List (String × JValue) → List (String × JValue)
  | [] => []
  | x :: xs => insertSorted x (sortEntries xs)

/-- Comma-joined `"key":value` fragments. -/
def marshalEntries : List (String × JValue) → String
  | [] => ""
  | [(k, v)] => "\"" ++ escapeJSON k ++ "\":" ++ marshalJValue v
  | (k, v) :: rest =>
    "\"" ++ escapeJSON k ++ "\":" ++ marshalJValue v ++ "," ++
      marshalEntries rest

/-- JSONB.String (src/sql/jsonb.go:56-65): "null" on a nil receiver,
otherwise the marshalled JSON object. -/
def JSONB.stringRepr (j : JSONB) : String :=
  match j with
  | none => "null"
  | some m => "\x7b" ++ marshalEntries (sortEntries m) ++ "\x7d"

/-
GormConfig (src/sql/gorm.go). Durations are int64 nanosecond counts
(Go `time.Duration`); `logger.LogLevel` is an int with `logger.Info = 4`.
-/

/-- `time.Minute` in nanoseconds. -/
def minuteNs : Int := 60 * 1000000000

/-- `time.Millisecond` in nanoseconds. -/
def millisecondNs : Int := 1000000

/-- The GormConfig structure (src/sql/gorm.go:14-30). -/
@[ext]
structure GormConfig where
  host : String
  user : String
  password : String
  name : String
  port : String
  sslMode : String
  timezone : String
  maxIdleConns : Int
  maxOpenConns : Int
  connMaxLifetime : Int
  connMaxIdleTime : Int
  translateErrors : Bool
  logLevel : Int
  slowThreshold : Int
  ignoreRecordNotFoundError : Bool
  deriving DecidableEq, Repr

/-- GormConfig.setDefaults (src/sql/gorm.go:93-119): each field that is
empty (strings) or non-positive (counts, durations) — or zero, for the log
level — is replaced by its default, field by field in source order. -/
def GormConfig.setDefaults (c : GormConfig) : GormConfig :=
  let c1 := if c.sslMode = "" then { c with sslMode := "disable" } else c
  let c2 := if c1.timezone = "" then { c1 with timezone := "UTC" } else c1
  let c3 :=
    if c2.maxIdleConns ≤ 0 then { c2 with maxIdleConns := 10 } else c2
  let c4 :=
    if c3.maxOpenConns ≤ 0 then { c3 with maxOpenConns := 100 } else c3
  let c5 :=
    if c4.connMaxLifetime ≤ 0 then
      { c4 with connMaxLifetime := 30 * minuteNs } else c4
  let c6 :=
    if c5.connMaxIdleTime ≤ 0 then
      { c5 with connMaxIdleTime := 10 * minuteNs } else c5
  let c7 := if c6.logLevel = 0 then { c6 with logLevel := 4 } else c6
  let c8 :=
    if c7.slowThreshold ≤ 0 then
      { c7 with slowThreshold := 200 * millisecondNs } else c7
  c8

/-- A fully populated configuration used to instantiate the defaulting
theorem. -/
def gormConfigSample : GormConfig :=
  { host := "db.internal", user := "svc", password := "pw", name := "appdb",
    port := "5432", sslMode := "require", timezone := "Europe/Berlin",
    maxIdleConns := 4, maxOpenConns := 40, connMaxLifetime := 60,
    connMaxIdleTime := 30, translateErrors := true, logLevel := 2,
    slowThreshold := 100, ignoreRecordNotFoundError := false }

/-- C1: on a non-nil handle whose begin succeeds, a successful unit of work
leads to exactly one commit call and zero rollback calls; the result is
success when commit succeeds, and a CommitError wrapping the commit failure
when it fails — with no rollback attempted either way (the issued-call list
is the same in both cases); WithTransaction is WithTransactionContext with
the background context. -/
theorem tx_success_commits_once (ctx : Ctx) (conn : DBConn)
    (hb : conn.beginErr = none) :
    (withTransactionContext ctx (some conn) fnOk).2
        = [Call.beginTx, Call.commit]
    ∧ (withTransactionContext ctx (some conn) fnOk).2.count Call.commit = 1
    ∧ (withTransactionContext ctx (some conn) fnOk).2.count Call.rollback = 0
    ∧ (conn.commitErr = none →
        (withTransactionContext ctx (some conn) fnOk).1 = .success)
    ∧ (∀ ce, conn.commitErr = some ce →
        (withTransactionContext ctx (some conn) fnOk).1
            = .failure (.commitFailed ce)
          ∧ (GoError.commitFailed ce).wrapsOriginal ce = true)
    ∧ withTransaction (some conn) fnOk
        = withTransactionContext backgroundCtx (some conn) fnOk := by
  have htr : (withTransactionContext ctx (some conn) fnOk).2
      = [Call.beginTx, Call.commit] := by
    simp only [withTransactionContext, fnOk, hb]
    cases h : conn.commitErr <;> simp
  refine ⟨htr, by rw [htr]; decide, by rw [htr]; decide, ?_, ?_, rfl⟩
  · intro hc
    simp [withTransactionContext, fnOk, hb, hc]
  · intro ce hc
    refine ⟨?_, ?_⟩
    · simp [withTransactionContext, fnOk, hb, hc]
    · simp [GoError.wrapsOriginal]

/-- Witness for `tx_success_commits_once` at the concrete connection
`connPlain`. -/
theorem tx_success_commits_once_witness :
    connPlain.beginErr = none
    ∧ (withTransactionContext backgroundCtx (some connPlain) fnOk).2
        = [Call.beginTx, Call.commit] :=
  ⟨rfl, (tx_success_commits_once backgroundCtx connPlain rfl).1⟩

/-- C2: on a non-nil handle whose begin succeeds, a unit of work that fails
with an ordinary error leads to exactly one rollback call and zero commit
calls, and the returned error wraps the original failure (whether or not
the rollback itself also fails); WithTransaction is WithTransactionContext
with the background context. -/
theorem tx_failure_rolls_back (ctx : Ctx) (conn : DBConn) (e : Err)
    (hb : conn.beginErr = none) :
    (withTransactionContext ctx (some conn) (fnFails e)).2
        = [Call.beginTx, Call.rollback]
    ∧ (withTransactionContext ctx (some conn) (fnFails e)).2.count
        Call.rollback = 1
    ∧ (withTransactionContext ctx (some conn) (fnFails e)).2.count
        Call.commit = 0
    ∧ (withTransactionContext ctx (some conn) (fnFails e)).1.errWraps e = true
    ∧ withTransaction (some conn) (fnFails e)
        = withTransactionContext backgroundCtx (some conn) (fnFails e) := by
  have htr : (withTransactionContext ctx (some conn) (fnFails e)).2
      = [Call.beginTx, Call.rollback] := by
    simp only [withTransactionContext, fnFails, hb]
    cases h : conn.rollbackErr <;> simp
  refine ⟨htr, by rw [htr]; decide, by rw [htr]; decide, ?_, rfl⟩
  simp only [withTransactionContext, fnFails, hb]
  cases h : conn.rollbackErr <;>
    simp [TxResult.errWraps, GoError.wrapsOriginal]

/-- Witness for `tx_failure_rolls_back` at the concrete connection
`connPlain`. -/
theorem tx_failure_rolls_back_witness :
    connPlain.beginErr = none
    ∧ (withTransactionContext backgroundCtx (some connPlain)
        (fnFails "boom")).1.errWraps "boom" = true :=
  ⟨rfl, (tx_failure_rolls_back backgroundCtx connPlain "boom" rfl).2.2.2.1⟩

/-- C3: on a non-nil handle whose begin succeeds, a panicking unit of work
causes a rollback call and the call then re-raises the identical panic
value — it is never converted into an ordinary error return. -/
theorem tx_panic_rolls_back_then_repanics (ctx : Ctx) (conn : DBConn)
    (v : PanicVal) (hb : conn.beginErr = none) :
    withTransactionContext ctx (some conn) (fnPanics v)
      = (.panicked v, [Call.beginTx, Call.rollback]) := by
  simp [withTransactionContext, fnPanics, hb]

/-- Witness for `tx_panic_rolls_back_then_repanics` at the concrete
connection `connPlain`. -/
theorem tx_panic_rolls_back_then_repanics_witness :
    connPlain.beginErr = none
    ∧ withTransactionContext backgroundCtx (some connPlain)
        (fnPanics "kaboom")
      = (.panicked "kaboom", [Call.beginTx, Call.rollback]) :=
  ⟨rfl, tx_panic_rolls_back_then_repanics backgroundCtx connPlain "kaboom" rfl⟩

/-- C4: when the unit of work fails and the subsequent rollback (in
WithTransactionContext) or rollback-to-savepoint (in the savepoint branch
of WithNestedTransactionContext) also fails, the single returned error
carries both the original cause and the rollback cause. -/
theorem rollback_failure_reports_both_causes (ctx : Ctx)
    (conn nconn : DBConn) (e re : Err) (hb : conn.beginErr = none)
    (hr : conn.rollbackErr = some re) (hin : nconn.inTransaction = true)
    (hsp : nconn.savePointErr (savepointName ctx) = none)
    (hrt : nconn.rollbackToErr (savepointName ctx) = some re) :
    (withTransactionContext ctx (some conn) (fnFails e)).1
        = .failure (.txFailedRollbackFailed e re)
    ∧ (GoError.txFailedRollbackFailed e re).carriesBoth e re = true
    ∧ (withNestedTransactionContext ctx (some nconn) (fnFails e)).1
        = .failure (.nestedFailedRollbackFailed e re)
    ∧ (GoError.nestedFailedRollbackFailed e re).carriesBoth e re = true := by
  refine ⟨?_, ?_, ?_, ?_⟩
  · simp [withTransactionContext, fnFails, hb, hr]
  · simp [GoError.carriesBoth]
  · simp [withNestedTransactionContext, fnFails, hin, hsp, hrt]
  · simp [GoError.carriesBoth]

/-- Witness for `rollback_failure_reports_both_causes` at the concrete
connections `connRbFail` and `connOpenRbFail`. -/
theorem rollback_failure_reports_both_causes_witness :
    connRbFail.beginErr = none
    ∧ connRbFail.rollbackErr = some "rollback refused"
    ∧ connOpenRbFail.inTransaction = true
    ∧ (withTransactionContext backgroundCtx (some connRbFail)
        (fnFails "boom")).1
        = .failure (.txFailedRollbackFailed "boom" "rollback refused")
    ∧ (withNestedTransactionContext backgroundCtx (some connOpenRbFail)
        (fnFails "boom")).1
        = .failure (.nestedFailedRollbackFailed "boom" "rollback refused") := by
  have h := rollback_failure_reports_both_causes backgroundCtx connRbFail
    connOpenRbFail "boom" "rollback refused" rfl rfl rfl rfl rfl
  exact ⟨rfl, rfl, rfl, h.1, h.2.2.1⟩

/-- C5: on a handle with an open transaction (and a savepoint call that
succeeds), the nested helper creates a savepoint and issues no begin, no
commit and no full rollback; the unit of work is invoked with the same
connection handle; on ordinary failure it rolls back to the savepoint and
returns the failure wrapped as a NestedTransactionError; on a panic it
rolls back to the savepoint and re-raises the identical value. -/
theorem nested_in_open_tx_uses_savepoint (ctx : Ctx) (conn : DBConn)
    (hin : conn.inTransaction = true)
    (hsp : conn.savePointErr (savepointName ctx) = none)
    (hrt : conn.rollbackToErr (savepointName ctx) = none) :
    withNestedTransactionContext ctx (some conn) fnOk
        = (.success, [Call.savePoint (savepointName ctx)])
    ∧ (∀ e, withNestedTransactionContext ctx (some conn) (fnFails e)
        = (.failure (.nestedFailed e),
            [Call.savePoint (savepointName ctx),
             Call.rollbackTo (savepointName ctx)]))
    ∧ (∀ v, withNestedTransactionContext ctx (some conn) (fnPanics v)
        = (.panicked v,
            [Call.savePoint (savepointName ctx),
             Call.rollbackTo (savepointName ctx)]))
    ∧ (∀ fn : TxFn, (fn .dbHandle).2 = .ok →
        (withNestedTransactionContext ctx (some conn) fn).2
          = Call.savePoint (savepointName ctx) :: (fn .dbHandle).1)
    ∧ (∀ e, (withNestedTransactionContext ctx (some conn)
          (fnFails e)).2.count Call.beginTx = 0
        ∧ (withNestedTransactionContext ctx (some conn)
            (fnFails e)).2.count Call.commit = 0
        ∧ (withNestedTransactionContext ctx (some conn)
            (fnFails e)).2.count Call.rollback = 0) := by
  have hfail : ∀ e, withNestedTransactionContext ctx (some conn) (fnFails e)
      = (.failure (.nestedFailed e),
          [Call.savePoint (savepointName ctx),
           Call.rollbackTo (savepointName ctx)]) := by
    intro e
    simp [withNestedTransactionContext, fnFails, hin, hsp, hrt]
  refine ⟨?_, hfail, ?_, ?_, ?_⟩
  · simp [withNestedTransactionContext, fnOk, hin, hsp]
  · intro v
    simp [withNestedTransactionContext, fnPanics, hin, hsp]
  · intro fn hok
    simp [withNestedTransactionContext, hin, hsp, hok]
  · intro e
    rw [hfail e]
    refine ⟨?_, ?_, ?_⟩ <;> simp [List.count_eq_zero]

/-- Witness for `nested_in_open_tx_uses_savepoint` at the concrete
connection `connOpen`. -/
theorem nested_in_open_tx_uses_savepoint_witness :
    connOpen.inTransaction = true
    ∧ withNestedTransactionContext backgroundCtx (some connOpen) fnOk
        = (.success, [Call.savePoint (savepointName backgroundCtx)]) :=
  ⟨rfl,
    (nested_in_open_tx_uses_savepoint backgroundCtx connOpen rfl rfl rfl).1⟩

/-- C6: on a non-nil handle with no open transaction, the nested helpers
coincide with the plain helpers: same result and same issued store calls
for every context and unit of work. -/
theorem nested_without_open_tx_delegates (ctx : Ctx) (conn : DBConn)
    (fn : TxFn) (h : conn.inTransaction = false) :
    withNestedTransactionContext ctx (some conn) fn
        = withTransactionContext ctx (some conn) fn
    ∧ withNestedTransaction (some conn) fn = withTransaction (some conn) fn := by
  constructor
  · simp [withNestedTransactionContext, h]
  · simp [withNestedTransaction, withTransaction,
      withNestedTransactionContext, h]

/-- Witness for `nested_without_open_tx_delegates` at the concrete
connection `connPlain`. -/
theorem nested_without_open_tx_delegates_witness :
    connPlain.inTransaction = false
    ∧ withNestedTransactionContext backgroundCtx (some connPlain) fnOk
        = withTransactionContext backgroundCtx (some connPlain) fnOk :=
  ⟨rfl,
    (nested_without_open_tx_delegates backgroundCtx connPlain fnOk rfl).1⟩

/-- C7 fails on the code: the savepoint name is derived solely from the
context value under "savepoint_id", which the library never sets or
changes, so two nested invocations layered on the same open transaction
with the same context generate the SAME name for two concurrently active
savepoints. This run layers an inner nested call (made by the outer unit
of work, with the same background context) inside an outer nested call on
`connOpen`: the issued calls are two savepoint creations with identical
names. -/
theorem savepoint_names_collide :
    (withNestedTransactionContext backgroundCtx (some connOpen)
        (fun _ =>
          ((withNestedTransactionContext backgroundCtx (some connOpen)
              fnOk).2, FnOutcome.ok))).2
      = [Call.savePoint "sp_%!d(<nil>)", Call.savePoint "sp_%!d(<nil>)"]
    ∧ (∀ ctx : Ctx, savepointName ctx = savepointName ctx) := by
  exact ⟨rfl, fun _ => rfl⟩

/-- C8: every entry point, given a nil handle, returns the configuration
error ("database connection is nil") and issues no store call at all. -/
theorem nil_handle_yields_configuration_error (ctx : Ctx) (fn : TxFn) :
    withTransactionContext ctx none fn = (.failure .configurationError, [])
    ∧ withTransaction none fn = (.failure .configurationError, [])
    ∧ withNestedTransactionContext ctx none fn
        = (.failure .configurationError, [])
    ∧ withNestedTransaction none fn = (.failure .configurationError, []) :=
  ⟨rfl, rfl, rfl, rfl⟩

/-- C9: every JSONB accessor is total on the nil map: the getters return
their zero value with false, Has is false, Keys is the nil slice, IsEmpty
is true, String is "null", Clone is nil, and Set and Delete leave the
receiver nil. -/
theorem jsonb_nil_accessors_total (key : String) (value : JValue) :
    JSONB.get none key = (none, false)
    ∧ JSONB.getString none key = ("", false)
    ∧ JSONB.getInt none key = (0, false)
    ∧ JSONB.getBool none key = (false, false)
    ∧ JSONB.hasKey none key = false
    ∧ JSONB.keys none = none
    ∧ JSONB.isEmpty none = true
    ∧ JSONB.stringRepr none = "null"
    ∧ JSONB.clone none = none
    ∧ JSONB.set none key value = none
    ∧ JSONB.delete none key = none :=
  ⟨rfl, rfl, rfl, rfl, rfl, rfl, rfl, rfl, rfl, rfl, rfl⟩

/-- The field-by-field normal form of setDefaults. -/
theorem setDefaults_eq (c : GormConfig) :
    c.setDefaults = { c with
      sslMode := if c.sslMode = "" then "disable" else c.sslMode,
      timezone := if c.timezone = "" then "UTC" else c.timezone,
      maxIdleConns := if c.maxIdleConns ≤ 0 then 10 else c.maxIdleConns,
      maxOpenConns := if c.maxOpenConns ≤ 0 then 100 else c.maxOpenConns,
      connMaxLifetime :=
        if c.connMaxLifetime ≤ 0 then 30 * minuteNs else c.connMaxLifetime,
      connMaxIdleTime :=
        if c.connMaxIdleTime ≤ 0 then 10 * minuteNs else c.connMaxIdleTime,
      logLevel := if c.logLevel = 0 then 4 else c.logLevel,
      slowThreshold :=
        if c.slowThreshold ≤ 0 then 200 * millisecondNs
        else c.slowThreshold } := by
  obtain ⟨ho, us, pw, na, po, ssl, tz, mic, moc, cml, cmi, te, ll, st, ig⟩ := c
  by_cases h1 : ssl = "" <;> by_cases h2 : tz = "" <;>
    by_cases h3 : mic ≤ 0 <;> by_cases h4 : moc ≤ 0 <;>
    by_cases h5 : cml ≤ 0 <;> by_cases h6 : cmi ≤ 0 <;>
    by_cases h7 : ll = 0 <;> by_cases h8 : st ≤ 0 <;>
    simp [GormConfig.setDefaults, h1, h2, h3, h4, h5, h6, h7, h8]

/-- Projection of setDefaults: sslMode. -/
theorem sd_sslMode (c : GormConfig) :
    c.setDefaults.sslMode = if c.sslMode = "" then "disable" else c.sslMode := by
  rw [setDefaults_eq]

/-- Projection of setDefaults: timezone. -/
theorem sd_timezone (c : GormConfig) :
    c.setDefaults.timezone = if c.timezone = "" then "UTC" else c.timezone := by
  rw [setDefaults_eq]

/-- Projection of setDefaults: maxIdleConns. -/
theorem sd_maxIdleConns (c : GormConfig) :
    c.setDefaults.maxIdleConns
      = if c.maxIdleConns ≤ 0 then 10 else c.maxIdleConns := by
  rw [setDefaults_eq]

/-- Projection of setDefaults: maxOpenConns. -/
theorem sd_maxOpenConns (c : GormConfig) :
    c.setDefaults.maxOpenConns
      = if c.maxOpenConns ≤ 0 then 100 else c.maxOpenConns := by
  rw [setDefaults_eq]

/-- Projection of setDefaults: connMaxLifetime. -/
theorem sd_connMaxLifetime (c : GormConfig) :
    c.setDefaults.connMaxLifetime
      = if c.connMaxLifetime ≤ 0 then 30 * minuteNs
        else c.connMaxLifetime := by
  rw [setDefaults_eq]

/-- Projection of setDefaults: connMaxIdleTime. -/
theorem sd_connMaxIdleTime (c : GormConfig) :
    c.setDefaults.connMaxIdleTime
      = if c.connMaxIdleTime ≤ 0 then 10 * minuteNs
        else c.connMaxIdleTime := by
  rw [setDefaults_eq]

/-- Projection of setDefaults: logLevel. -/
theorem sd_logLevel (c : GormConfig) :
    c.setDefaults.logLevel = if c.logLevel = 0 then 4 else c.logLevel := by
  rw [setDefaults_eq]

/-- Projection of setDefaults: slowThreshold. -/
theorem sd_slowThreshold (c : GormConfig) :
    c.setDefaults.slowThreshold
      = if c.slowThreshold ≤ 0 then 200 * millisecondNs
        else c.slowThreshold := by
  rw [setDefaults_eq]

/-- Projection of setDefaults: host. -/
theorem sd_host (c : GormConfig) : c.setDefaults.host = c.host := by
  rw [setDefaults_eq]

/-- Projection of setDefaults: user. -/
theorem sd_user (c : GormConfig) : c.setDefaults.user = c.user := by
  rw [setDefaults_eq]

/-- Projection of setDefaults: password. -/
theorem sd_password (c : GormConfig) : c.setDefaults.password = c.password := by
  rw [setDefaults_eq]

/-- Projection of setDefaults: name. -/
theorem sd_name (c : GormConfig) : c.setDefaults.name = c.name := by
  rw [setDefaults_eq]

/-- Projection of setDefaults: port. -/
theorem sd_port (c : GormConfig) : c.setDefaults.port = c.port := by
  rw [setDefaults_eq]

/-- Projection of setDefaults: translateErrors. -/
theorem sd_translateErrors (c : GormConfig) :
    c.setDefaults.translateErrors = c.translateErrors := by
  rw [setDefaults_eq]

/-- Projection of setDefaults: ignoreRecordNotFoundError. -/
theorem sd_ignoreRecordNotFoundError (c : GormConfig) :
    c.setDefaults.ignoreRecordNotFoundError
      = c.ignoreRecordNotFoundError := by
  rw [setDefaults_eq]

/-- C10: setDefaults is idempotent, never changes a defaulted field that
already holds a non-empty string (SSLMode, Timezone) or a positive value
(pool sizes, durations, log level, slow threshold), and leaves the
identifying fields Host, User, Password, Name and Port unchanged in every
case. -/
theorem setDefaults_idempotent_preserving (c : GormConfig) :
    c.setDefaults.setDefaults = c.setDefaults
    ∧ (c.sslMode ≠ "" → c.setDefaults.sslMode = c.sslMode)
    ∧ (c.timezone ≠ "" → c.setDefaults.timezone = c.timezone)
    ∧ (0 < c.maxIdleConns → c.setDefaults.maxIdleConns = c.maxIdleConns)
    ∧ (0 < c.maxOpenConns → c.setDefaults.maxOpenConns = c.maxOpenConns)
    ∧ (0 < c.connMaxLifetime →
        c.setDefaults.connMaxLifetime = c.connMaxLifetime)
    ∧ (0 < c.connMaxIdleTime →
        c.setDefaults.connMaxIdleTime = c.connMaxIdleTime)
    ∧ (0 < c.logLevel → c.setDefaults.logLevel = c.logLevel)
    ∧ (0 < c.slowThreshold → c.setDefaults.slowThreshold = c.slowThreshold)
    ∧ c.setDefaults.host = c.host
    ∧ c.setDefaults.user = c.user
    ∧ c.setDefaults.password = c.password
    ∧ c.setDefaults.name = c.name
    ∧ c.setDefaults.port = c.port := by
  refine ⟨?_, ?_, ?_, ?_, ?_, ?_, ?_, ?_, ?_, sd_host _, sd_user _,
    sd_password _, sd_name _, sd_port _⟩
  · ext <;>
      simp only [sd_sslMode, sd_timezone, sd_maxIdleConns, sd_maxOpenConns,
        sd_connMaxLifetime, sd_connMaxIdleTime, sd_logLevel,
        sd_slowThreshold, sd_host, sd_user, sd_password, sd_name, sd_port,
        sd_translateErrors, sd_ignoreRecordNotFoundError] <;>
      split_ifs <;> rfl
  · intro h
    rw [sd_sslMode, if_neg h]
  · intro h
    rw [sd_timezone, if_neg h]
  · intro h
    rw [sd_maxIdleConns, if_neg (by omega)]
  · intro h
    rw [sd_maxOpenConns, if_neg (by omega)]
  · intro h
    rw [sd_connMaxLifetime, if_neg (by omega)]
  · intro h
    rw [sd_connMaxIdleTime, if_neg (by omega)]
  · intro h
    rw [sd_logLevel, if_neg (by omega)]
  · intro h
    rw [sd_slowThreshold, if_neg (by omega)]

/-- Witness for `setDefaults_idempotent_preserving` at the fully populated
configuration `gormConfigSample`. -/
theorem setDefaults_idempotent_preserving_witness :
    gormConfigSample.sslMode ≠ ""
    ∧ 0 < gormConfigSample.maxIdleConns
    ∧ gormConfigSample.setDefaults.setDefaults
        = gormConfigSample.setDefaults
    ∧ gormConfigSample.setDefaults.sslMode = gormConfigSample.sslMode
    ∧ gormConfigSample.setDefaults.maxIdleConns
        = gormConfigSample.maxIdleConns
    ∧ gormConfigSample.setDefaults.host = gormConfigSample.host := by
  obtain ⟨h1, h2, h3, h4, h5, h6, h7, h8, h9, h10, h11, h12, h13, h14⟩ :=
    setDefaults_idempotent_preserving gormConfigSample
  exact ⟨by decide, by decide, h1, h2 (by decide), h4 (by decide), h10⟩

end GoPkgDatabase
